import Mathlib

/-!
Verification of `pytext/task/tasks.py`: a shallow embedding of the task
configuration classes and their utility methods (`format_prediction` on
`DocClassificationTask`, `WordTaggingTask` and `JointTextTask`, and
`train_single_model` on `EnsembleTask`), together with theorems settling the
specification claims about them.

Modelling conventions:
* prediction indices (`prediction.data` on a tensor) are `Nat`;
* score vectors (`score.tolist()`) are lists over an arbitrary score type `α`
  (the code never computes with scores, it only moves them around);
* Python dicts built by comprehensions are association lists with Python-dict
  semantics (first-occurrence key order, last value wins);
* Python generators are lists of `Option` elements: element `i` is `none` when
  pulling the `i`-th item from the generator would raise (here: an
  out-of-range vocabulary index), and consuming a whole generator is
  `sequenceOpt`;
* in-place mutation (the ensemble trainer updating a sub-model) is explicit
  state passing: the trainer returns the updated sub-model, and
  `train_single_model` returns the updated task state next to the trainer's
  result; a failed assertion is `none`.
-/

namespace PyText

/-- Vocabulary object of a target: models `vocab` with its index-to-string
table `itos` (source: `target_meta.vocab.itos`). -/
structure Vocab where
  itos : List String
deriving DecidableEq

/-- Models the `target_meta` argument of the formatters, which is only used
through `target_meta.vocab.itos`. -/
structure TargetMeta where
  vocab : Vocab
deriving DecidableEq

/-- Models the `context` dict argument of the formatters. The source reads
only the `context[DatasetFieldName.TOKEN_RANGE]` entry, a per-example list of
token ranges; every other entry of the dict is abstracted into `extras`. -/
structure Context (γ : Type) where
  token_range : List (List (Nat × Nat))
  extras : γ
deriving DecidableEq

/-- One step of building a Python dict: if the key is already present, the
(first) entry holding it is updated in place, keeping its position; otherwise
the pair is appended at the end. -/
def dictInsert {α : Type} (d : List (String × α)) (k : String) (v : α) :
    List (String × α) :=
  match d with
  | [] => [(k, v)]
  | p :: rest => if p.1 = k then (k, v) :: rest else p :: dictInsert rest k v

/-- Association list built exactly like a Python dict comprehension over a
list of pairs: keys keep first-occurrence order, and a repeated key keeps the
last value associated with it. -/
def dictOfPairs {α : Type} (ps : List (String × α)) : List (String × α) :=
  ps.foldl (fun d p => dictInsert d p.1 p.2) []

/-- Key lookup in the association-list model of a Python dict. -/
def dictLookup {α : Type} (k : String) : List (String × α) → Option α
  | [] => none
  | p :: rest => if p.1 = k then some p.2 else dictLookup k rest

/-- Models `{n: s for n, s in zip(target_names, score.tolist())}`, the score
dict built by both `DocClassificationTask.format_prediction` and
`WordTaggingTask.format_prediction`. -/
def score_with_name {α : Type} (target_names : List String) (score : List α) :
    List (String × α) :=
  dictOfPairs (target_names.zip score)

/-- Consuming a whole Python generator whose `i`-th pull is element `i`:
`none` as soon as some pull raises. -/
def sequenceOpt {β : Type} : List (Option β) → Option (List β)
  | [] => some []
  | none :: _ => none
  | some b :: rest => (sequenceOpt rest).map (fun l => b :: l)

/-- Three-way `zip`, truncating to the shortest list, as Python's
`zip(a, b, c)` does. -/
def zip3 {a b c : Type} : List a → List b → List c → List (a × b × c)
  | x :: xs, y :: ys, z :: zs => (x, y, z) :: zip3 xs ys zs
  | _, _, _ => []

/-- Python's `zip` over two generators-with-failure, pulling from the left
generator first at each step: it stops when either side is exhausted, and
fails when the first pull it actually performs raises. -/
def zipGen {a b : Type} : List (Option a) → List (Option b) → Option (List (a × b))
  | [], _ => some []
  | none :: _, _ => none
  | some _ :: _, [] => some []
  | some x :: xs, oy :: ys =>
    match oy with
    | none => none
    | some y => (zipGen xs ys).map (fun l => (x, y) :: l)

/-- Record yielded by `DocClassificationTask.format_prediction`:
`{"prediction": ..., "score": ...}`. -/
structure DocRecord (α : Type) where
  prediction : String
  score : List (String × α)
deriving DecidableEq

/-- Record yielded (inside a per-example list) by
`WordTaggingTask.format_prediction`:
`{"prediction": ..., "score": ..., "token_range": ...}`. -/
structure WordRecord (α : Type) where
  prediction : String
  score : List (String × α)
  token_range : Nat × Nat
deriving DecidableEq

/-- Record yielded by `JointTextTask.format_prediction`:
`{"intent": ..., "slot": ...}`. -/
structure JointRecord (α : Type) where
  intent : DocRecord α
  slot : List (WordRecord α)
deriving DecidableEq

namespace DocClassificationTask

/-- One loop iteration of `DocClassificationTask.format_prediction`: builds the
yielded dict for a single `(prediction, score)` pair; `none` when
`target_names[prediction.data]` is out of range. -/
def format_one {α : Type} (target_names : List String) (prediction : Nat)
    (score : List α) : Option (DocRecord α) :=
  (target_names.get? prediction).map fun name =>
    { prediction := name, score := score_with_name target_names score }

/-- The generator returned by `DocClassificationTask.format_prediction`, as
the stream of its pulls: one per element of `zip(predictions, scores)`. The
`context` argument is accepted (as in the source signature) but never read. -/
def format_stream {α γ : Type} (predictions : List Nat) (scores : List (List α))
    (context : Context γ) (target_meta : TargetMeta) : List (Option (DocRecord α)) :=
  (predictions.zip scores).map fun ps =>
    format_one target_meta.vocab.itos ps.1 ps.2

/-- `DocClassificationTask.format_prediction`, fully consumed: the list of
yielded records, or `none` if some iteration raises. -/
def format_prediction {α γ : Type} (predictions : List Nat) (scores : List (List α))
    (context : Context γ) (target_meta : TargetMeta) : Option (List (DocRecord α)) :=
  sequenceOpt (format_stream predictions scores context target_meta)

end DocClassificationTask

namespace WordTaggingTask

/-- One entry of the per-example list comprehension in
`WordTaggingTask.format_prediction`: the dict for a single
`(word_pred, word_score, token_range)` triple. -/
def format_token {α : Type} (target_names : List String) (word_pred : Nat)
    (word_score : List α) (token_range : Nat × Nat) : Option (WordRecord α) :=
  (target_names.get? word_pred).map fun name =>
    { prediction := name
      score := score_with_name target_names word_score
      token_range := token_range }

/-- One loop iteration of `WordTaggingTask.format_prediction`: the per-example
list comprehension over `zip(prediction, score, token_ranges)` (eager, so the
whole example fails if any token's vocabulary index is out of range). -/
def format_example {α : Type} (target_names : List String) (prediction : List Nat)
    (score : List (List α)) (token_ranges : List (Nat × Nat)) :
    Option (List (WordRecord α)) :=
  sequenceOpt ((zip3 prediction score token_ranges).map fun t =>
    format_token target_names t.1 t.2.1 t.2.2)

/-- The generator returned by `WordTaggingTask.format_prediction`, as the
stream of its pulls: one per element of
`zip(predictions, scores, context[TOKEN_RANGE])`. -/
def format_stream {α γ : Type} (predictions : List (List Nat))
    (scores : List (List (List α))) (context : Context γ)
    (target_meta : TargetMeta) : List (Option (List (WordRecord α))) :=
  (zip3 predictions scores context.token_range).map fun t =>
    format_example target_meta.vocab.itos t.1 t.2.1 t.2.2

/-- `WordTaggingTask.format_prediction`, fully consumed. -/
def format_prediction {α γ : Type} (predictions : List (List Nat))
    (scores : List (List (List α))) (context : Context γ)
    (target_meta : TargetMeta) : Option (List (List (WordRecord α))) :=
  sequenceOpt (format_stream predictions scores context target_meta)

end WordTaggingTask

namespace JointTextTask

/-- `JointTextTask.format_prediction`: unpacks its tuple arguments into
document and word halves, zips the two sub-generators (document side pulled
first, as written in the source `zip`), and wraps each pair as
`{"intent": ..., "slot": ...}`. Both sub-generators receive the same,
unsliced `context`. -/
def format_prediction {α γ : Type} (predictions : List Nat × List (List Nat))
    (scores : List (List α) × List (List (List α))) (context : Context γ)
    (target_meta : TargetMeta × TargetMeta) : Option (List (JointRecord α)) :=
  (zipGen
      (DocClassificationTask.format_stream predictions.1 scores.1 context
        target_meta.1)
      (WordTaggingTask.format_stream predictions.2 scores.2 context
        target_meta.2)).map
    (List.map fun pr => { intent := pr.1, slot := pr.2 })

end JointTextTask

/-- Modelled from the spec: the external `DataHandler` collaborator, consumed
through `get_train_iter(rank, world_size)` (the rank-partitioned training
iterator) and `get_eval_iter()` (the full evaluation iterator); iterators are
opaque values of type `Iter`. -/
structure DataHandler (Iter : Type) where
  get_train_iter : Nat → Nat → Iter
  get_eval_iter : Iter

/-- Modelled from the spec: the external `EnsembleTrainer` collaborator,
consumed through
`train_single_model(train_iter, eval_iter, model, metric_reporter,
train_config, optimizer, lr_scheduler)`. Its in-place mutation of the trained
sub-model is made explicit: it returns the updated sub-model next to its
result value. -/
structure EnsembleTrainer (Iter Model MR TC Opt Sch Res : Type) where
  train_single_model : Iter → Iter → Model → MR → TC → Opt → Sch → Model × Res

/-- The runtime ensemble model: `self.model` with its ordered list of
sub-models `self.model.models`. -/
structure EnsembleModel (Model : Type) where
  models : List Model
deriving DecidableEq

/-- Runtime state of an `EnsembleTask`: the attributes its
`train_single_model` method reads (`self.model`, `self.trainer`,
`self.data_handler`, `self.metric_reporter`, `self.optimizer`,
`self.lr_scheduler`); the attribute set itself is modelled from the spec since
the `Task` base class is external. -/
structure EnsembleTask (Iter Model MR TC Opt Sch Res : Type) where
  model : EnsembleModel Model
  trainer : EnsembleTrainer Iter Model MR TC Opt Sch Res
  data_handler : DataHandler Iter
  metric_reporter : MR
  optimizer : Opt
  lr_scheduler : Sch

/-- `EnsembleTask.train_single_model(self, train_config, model_id, rank,
world_size)`. The leading `assert model_id >= 0 and model_id < len(self.model.models)`
is `none` on failure (nothing is trained, no state changes); on success the
selected sub-model is trained and the returned task state carries the updated
sub-model list, next to the trainer's return value. -/
def EnsembleTask.train_single_model {Iter Model MR TC Opt Sch Res : Type}
    (self : EnsembleTask Iter Model MR TC Opt Sch Res) (train_config : TC)
    (model_id : Int) (rank : Nat) (world_size : Nat) :
    Option (EnsembleTask Iter Model MR TC Opt Sch Res × Res) :=
  if h : 0 ≤ model_id ∧ model_id < (self.model.models.length : Int) then
    have hlt : model_id.toNat < self.model.models.length := by omega
    let r := self.trainer.train_single_model
      (self.data_handler.get_train_iter rank world_size)
      self.data_handler.get_eval_iter
      (self.model.models.get ⟨model_id.toNat, hlt⟩)
      self.metric_reporter
      train_config
      self.optimizer
      self.lr_scheduler
    some ({ self with
            model := { models := self.model.models.set model_id.toNat r.1 } },
          r.2)
  else
    none

/-- `EnsembleTask.train_single_model` called with its optional arguments
omitted: the source declares the defaults `rank=0, world_size=1`. -/
def EnsembleTask.train_single_model_default {Iter Model MR TC Opt Sch Res : Type}
    (self : EnsembleTask Iter Model MR TC Opt Sch Res) (train_config : TC)
    (model_id : Int) : Option (EnsembleTask Iter Model MR TC Opt Sch Res × Res) :=
  EnsembleTask.train_single_model self train_config model_id 0 1

/-- Modelled from the spec: an external sub-configuration class (e.g.
`Trainer.Config`, `DocModel.Config`), defined outside this unit. Its contents
are opaque; the `tag` keeps the distinct classes distinct as Lean types. -/
structure AbstractConfig (tag : String) where
  overrides : List Nat
deriving DecidableEq

/-- Modelled from the spec: the zero-argument default construction `C()` of an
external sub-configuration class — "instantiated with sensible defaults". -/
def AbstractConfig.new (tag : String) : AbstractConfig tag :=
  { overrides := [] }

/-- `TargetConfigBase`, the element type of `labels: List[TargetConfigBase]`. -/
abbrev TargetConfigBase := AbstractConfig "TargetConfigBase"

/-- The `Union[BaggingDocEnsemble.Config, BaggingIntentSlotEnsemble.Config]`
type of `EnsembleTask.Config.model`, as a tagged sum. -/
inductive EnsembleModelConfig
  | baggingDoc (config : AbstractConfig "BaggingDocEnsemble.Config")
  | baggingIntentSlot (config : AbstractConfig "BaggingIntentSlotEnsemble.Config")
deriving DecidableEq

/-- The `Union[ClassificationMetricReporter.Config, IntentSlotMetricReporter.Config]`
type of `EnsembleTask.Config.metric_reporter`, as a tagged sum. -/
inductive EnsembleMetricReporterConfig
  | classification (config : AbstractConfig "ClassificationMetricReporter.Config")
  | intentSlot (config : AbstractConfig "IntentSlotMetricReporter.Config")
deriving DecidableEq

/-- The field record of `EnsembleTask.Config`. -/
structure EnsembleTaskConfig where
  model : EnsembleModelConfig
  trainer : AbstractConfig "EnsembleTrainer.Config"
  labels : List TargetConfigBase
  metric_reporter : EnsembleMetricReporterConfig
  data_handler : AbstractConfig "JointModelDataHandler.Config"
deriving DecidableEq

/-- Construction of `EnsembleTask.Config`, modelled from the spec's account of
config construction: a field with a declared default may be omitted (`none`)
and then takes that default; `model` and `labels` have no default and must be
supplied. Source defaults: `trainer = EnsembleTrainer.Config()`,
`metric_reporter = ClassificationMetricReporter.Config()`,
`data_handler = JointModelDataHandler.Config()`. -/
def EnsembleTaskConfig.make (model : EnsembleModelConfig)
    (labels : List TargetConfigBase)
    (trainer : Option (AbstractConfig "EnsembleTrainer.Config"))
    (metric_reporter : Option EnsembleMetricReporterConfig)
    (data_handler : Option (AbstractConfig "JointModelDataHandler.Config")) :
    EnsembleTaskConfig :=
  { model := model
    trainer := trainer.getD (AbstractConfig.new "EnsembleTrainer.Config")
    labels := labels
    metric_reporter := metric_reporter.getD
      (.classification (AbstractConfig.new "ClassificationMetricReporter.Config"))
    data_handler := data_handler.getD
      (AbstractConfig.new "JointModelDataHandler.Config") }

/-- The field record of `DocClassificationTask.Config`. -/
structure DocClassificationTaskConfig where
  model : AbstractConfig "DocModel.Config"
  trainer : AbstractConfig "Trainer.Config"
  features : AbstractConfig "DocClassification.ModelInputConfig"
  labels : AbstractConfig "DocClassification.TargetConfig"
  data_handler : AbstractConfig "DocClassificationDataHandler.Config"
  metric_reporter : AbstractConfig "ClassificationMetricReporter.Config"
deriving DecidableEq

/-- Construction of `DocClassificationTask.Config`: every field has a declared
default, so every argument may be omitted. -/
def DocClassificationTaskConfig.make
    (model : Option (AbstractConfig "DocModel.Config"))
    (trainer : Option (AbstractConfig "Trainer.Config"))
    (features : Option (AbstractConfig "DocClassification.ModelInputConfig"))
    (labels : Option (AbstractConfig "DocClassification.TargetConfig"))
    (data_handler : Option (AbstractConfig "DocClassificationDataHandler.Config"))
    (metric_reporter : Option (AbstractConfig "ClassificationMetricReporter.Config")) :
    DocClassificationTaskConfig :=
  { model := model.getD (AbstractConfig.new "DocModel.Config")
    trainer := trainer.getD (AbstractConfig.new "Trainer.Config")
    features := features.getD (AbstractConfig.new "DocClassification.ModelInputConfig")
    labels := labels.getD (AbstractConfig.new "DocClassification.TargetConfig")
    data_handler := data_handler.getD
      (AbstractConfig.new "DocClassificationDataHandler.Config")
    metric_reporter := metric_reporter.getD
      (AbstractConfig.new "ClassificationMetricReporter.Config") }

/-- The field record of `JointTextTask.Config`. -/
structure JointTextTaskConfig where
  labels : List TargetConfigBase
  model : AbstractConfig "JointModel.Config"
  trainer : AbstractConfig "Trainer.Config"
  data_handler : AbstractConfig "JointModelDataHandler.Config"
  metric_reporter : AbstractConfig "IntentSlotMetricReporter.Config"
deriving DecidableEq

/-- Construction of `JointTextTask.Config`: `labels` has no default and must
be supplied; every other field defaults. -/
def JointTextTaskConfig.make (labels : List TargetConfigBase)
    (model : Option (AbstractConfig "JointModel.Config"))
    (trainer : Option (AbstractConfig "Trainer.Config"))
    (data_handler : Option (AbstractConfig "JointModelDataHandler.Config"))
    (metric_reporter : Option (AbstractConfig "IntentSlotMetricReporter.Config")) :
    JointTextTaskConfig :=
  { labels := labels
    model := model.getD (AbstractConfig.new "JointModel.Config")
    trainer := trainer.getD (AbstractConfig.new "Trainer.Config")
    data_handler := data_handler.getD
      (AbstractConfig.new "JointModelDataHandler.Config")
    metric_reporter := metric_reporter.getD
      (AbstractConfig.new "IntentSlotMetricReporter.Config") }

/-- The field record of `ContextualIntentSlotTask.Config`; its `labels` field
has type `ContextualIntentSlot.TargetConfig`, an ordered sequence of label
configs (see `example_config`, which supplies a two-element list). -/
structure ContextualIntentSlotTaskConfig where
  labels : List TargetConfigBase
  features : AbstractConfig "ContextualIntentSlot.ModelInputConfig"
  model : AbstractConfig "ContextualIntentSlotModel.Config"
  trainer : AbstractConfig "Trainer.Config"
  data_handler : AbstractConfig "ContextualIntentSlotModelDataHandler.Config"
  metric_reporter : AbstractConfig "IntentSlotMetricReporter.Config"
deriving DecidableEq

/-- Construction of `ContextualIntentSlotTask.Config`: `labels` has no default
and must be supplied; every other field defaults. -/
def ContextualIntentSlotTaskConfig.make (labels : List TargetConfigBase)
    (features : Option (AbstractConfig "ContextualIntentSlot.ModelInputConfig"))
    (model : Option (AbstractConfig "ContextualIntentSlotModel.Config"))
    (trainer : Option (AbstractConfig "Trainer.Config"))
    (data_handler : Option (AbstractConfig "ContextualIntentSlotModelDataHandler.Config"))
    (metric_reporter : Option (AbstractConfig "IntentSlotMetricReporter.Config")) :
    ContextualIntentSlotTaskConfig :=
  { labels := labels
    features := features.getD
      (AbstractConfig.new "ContextualIntentSlot.ModelInputConfig")
    model := model.getD (AbstractConfig.new "ContextualIntentSlotModel.Config")
    trainer := trainer.getD (AbstractConfig.new "Trainer.Config")
    data_handler := data_handler.getD
      (AbstractConfig.new "ContextualIntentSlotModelDataHandler.Config")
    metric_reporter := metric_reporter.getD
      (AbstractConfig.new "IntentSlotMetricReporter.Config") }

/-- The field record of `QueryDocumentPairwiseRankingTask.Config`; its
`labels` field is declared `Optional[DocLabelConfig] = None`, so it holds an
optional value defaulting to `None`. -/
structure QueryDocumentPairwiseRankingTaskConfig where
  features : AbstractConfig "QueryDocumentPairwiseRanking.ModelInputConfig"
  model : AbstractConfig "QueryDocumentPairwiseRankingModel.Config"
  data_handler : AbstractConfig "QueryDocumentPairwiseRankingDataHandler.Config"
  trainer : AbstractConfig "Trainer.Config"
  labels : Option (AbstractConfig "DocLabelConfig")
  metric_reporter : AbstractConfig "PairwiseRankingMetricReporter.Config"
deriving DecidableEq

/-- Construction of `QueryDocumentPairwiseRankingTask.Config`: every field has
a declared default (`labels` defaults to `None`), so every argument may be
omitted. -/
def QueryDocumentPairwiseRankingTaskConfig.make
    (features : Option (AbstractConfig "QueryDocumentPairwiseRanking.ModelInputConfig"))
    (model : Option (AbstractConfig "QueryDocumentPairwiseRankingModel.Config"))
    (data_handler : Option (AbstractConfig "QueryDocumentPairwiseRankingDataHandler.Config"))
    (trainer : Option (AbstractConfig "Trainer.Config"))
    (labels : Option (Option (AbstractConfig "DocLabelConfig")))
    (metric_reporter : Option (AbstractConfig "PairwiseRankingMetricReporter.Config")) :
    QueryDocumentPairwiseRankingTaskConfig :=
  { features := features.getD
      (AbstractConfig.new "QueryDocumentPairwiseRanking.ModelInputConfig")
    model := model.getD
      (AbstractConfig.new "QueryDocumentPairwiseRankingModel.Config")
    data_handler := data_handler.getD
      (AbstractConfig.new "QueryDocumentPairwiseRankingDataHandler.Config")
    trainer := trainer.getD (AbstractConfig.new "Trainer.Config")
    labels := labels.getD none
    metric_reporter := metric_reporter.getD
      (AbstractConfig.new "PairwiseRankingMetricReporter.Config") }

/-- The field record of `WordTaggingTask.Config`. -/
structure WordTaggingTaskConfig where
  model : AbstractConfig "WordTaggingModel.Config"
  trainer : AbstractConfig "Trainer.Config"
  labels : AbstractConfig "WordLabelConfig"
  data_handler : AbstractConfig "JointModelDataHandler.Config"
  metric_reporter : AbstractConfig "WordTaggingMetricReporter.Config"
deriving DecidableEq

/-- Construction of `WordTaggingTask.Config`: every field has a declared
default (`labels = WordLabelConfig()`), so every argument may be omitted. -/
def WordTaggingTaskConfig.make
    (model : Option (AbstractConfig "WordTaggingModel.Config"))
    (trainer : Option (AbstractConfig "Trainer.Config"))
    (labels : Option (AbstractConfig "WordLabelConfig"))
    (data_handler : Option (AbstractConfig "JointModelDataHandler.Config"))
    (metric_reporter : Option (AbstractConfig "WordTaggingMetricReporter.Config")) :
    WordTaggingTaskConfig :=
  { model := model.getD (AbstractConfig.new "WordTaggingModel.Config")
    trainer := trainer.getD (AbstractConfig.new "Trainer.Config")
    labels := labels.getD (AbstractConfig.new "WordLabelConfig")
    data_handler := data_handler.getD
      (AbstractConfig.new "JointModelDataHandler.Config")
    metric_reporter := metric_reporter.getD
      (AbstractConfig.new "WordTaggingMetricReporter.Config") }

/-- The `Union[LanguageModelDataHandler.Config, BPTTLanguageModelDataHandler.Config]`
type of `LMTask.Config.data_handler`, as a tagged sum. -/
inductive LMDataHandlerConfig
  | languageModel (config : AbstractConfig "LanguageModelDataHandler.Config")
  | bpttLanguageModel (config : AbstractConfig "BPTTLanguageModelDataHandler.Config")
deriving DecidableEq

/-- The field record of `LMTask.Config`; `labels` is declared
`Optional[WordLabelConfig] = None`. -/
structure LMTaskConfig where
  data_handler : LMDataHandlerConfig
  model : AbstractConfig "LMLSTM.Config"
  trainer : AbstractConfig "Trainer.Config"
  labels : Option (AbstractConfig "WordLabelConfig")
  metric_reporter : AbstractConfig "LanguageModelMetricReporter.Config"
deriving DecidableEq

/-- Construction of `LMTask.Config`: every field has a declared default — the
union-typed `data_handler` defaults to `LanguageModelDataHandler.Config()`,
`labels` to `None` — so every argument may be omitted. -/
def LMTaskConfig.make
    (data_handler : Option LMDataHandlerConfig)
    (model : Option (AbstractConfig "LMLSTM.Config"))
    (trainer : Option (AbstractConfig "Trainer.Config"))
    (labels : Option (Option (AbstractConfig "WordLabelConfig")))
    (metric_reporter : Option (AbstractConfig "LanguageModelMetricReporter.Config")) :
    LMTaskConfig :=
  { data_handler := data_handler.getD
      (.languageModel (AbstractConfig.new "LanguageModelDataHandler.Config"))
    model := model.getD (AbstractConfig.new "LMLSTM.Config")
    trainer := trainer.getD (AbstractConfig.new "Trainer.Config")
    labels := labels.getD none
    metric_reporter := metric_reporter.getD
      (AbstractConfig.new "LanguageModelMetricReporter.Config") }

/-- The field record of `PairClassificationTask.Config`. -/
structure PairClassificationTaskConfig where
  features : AbstractConfig "PairClassification.ModelInputConfig"
  model : AbstractConfig "PairClassificationModel.Config"
  data_handler : AbstractConfig "PairClassificationDataHandler.Config"
  trainer : AbstractConfig "Trainer.Config"
  labels : AbstractConfig "PairClassification.TargetConfig"
  metric_reporter : AbstractConfig "ClassificationMetricReporter.Config"
deriving DecidableEq

/-- Construction of `PairClassificationTask.Config`: every field has a
declared default, so every argument may be omitted. -/
def PairClassificationTaskConfig.make
    (features : Option (AbstractConfig "PairClassification.ModelInputConfig"))
    (model : Option (AbstractConfig "PairClassificationModel.Config"))
    (data_handler : Option (AbstractConfig "PairClassificationDataHandler.Config"))
    (trainer : Option (AbstractConfig "Trainer.Config"))
    (labels : Option (AbstractConfig "PairClassification.TargetConfig"))
    (metric_reporter : Option (AbstractConfig "ClassificationMetricReporter.Config")) :
    PairClassificationTaskConfig :=
  { features := features.getD
      (AbstractConfig.new "PairClassification.ModelInputConfig")
    model := model.getD (AbstractConfig.new "PairClassificationModel.Config")
    data_handler := data_handler.getD
      (AbstractConfig.new "PairClassificationDataHandler.Config")
    trainer := trainer.getD (AbstractConfig.new "Trainer.Config")
    labels := labels.getD (AbstractConfig.new "PairClassification.TargetConfig")
    metric_reporter := metric_reporter.getD
      (AbstractConfig.new "ClassificationMetricReporter.Config") }

/-- The field record of `SeqNNTask.Config`. -/
structure SeqNNTaskConfig where
  model : AbstractConfig "SeqNNModel.Config"
  trainer : AbstractConfig "Trainer.Config"
  labels : AbstractConfig "DocLabelConfig"
  data_handler : AbstractConfig "SeqModelDataHandler.Config"
  metric_reporter : AbstractConfig "ClassificationMetricReporter.Config"
deriving DecidableEq

/-- Construction of `SeqNNTask.Config`: every field has a declared default
(`labels = DocLabelConfig()`), so every argument may be omitted. -/
def SeqNNTaskConfig.make
    (model : Option (AbstractConfig "SeqNNModel.Config"))
    (trainer : Option (AbstractConfig "Trainer.Config"))
    (labels : Option (AbstractConfig "DocLabelConfig"))
    (data_handler : Option (AbstractConfig "SeqModelDataHandler.Config"))
    (metric_reporter : Option (AbstractConfig "ClassificationMetricReporter.Config")) :
    SeqNNTaskConfig :=
  { model := model.getD (AbstractConfig.new "SeqNNModel.Config")
    trainer := trainer.getD (AbstractConfig.new "Trainer.Config")
    labels := labels.getD (AbstractConfig.new "DocLabelConfig")
    data_handler := data_handler.getD
      (AbstractConfig.new "SeqModelDataHandler.Config")
    metric_reporter := metric_reporter.getD
      (AbstractConfig.new "ClassificationMetricReporter.Config") }

/-- The field record of `SemanticParsingTask.Config`; `labels` is declared
`Optional[WordLabelConfig] = None`, and the trainer default is
`HogwildTrainer.Config()`. -/
structure SemanticParsingTaskConfig where
  model : AbstractConfig "RNNGParser.Config"
  trainer : AbstractConfig "HogwildTrainer.Config"
  data_handler : AbstractConfig "CompositionalDataHandler.Config"
  labels : Option (AbstractConfig "WordLabelConfig")
  metric_reporter : AbstractConfig "CompositionalMetricReporter.Config"
deriving DecidableEq

/-- Construction of `SemanticParsingTask.Config`: every field has a declared
default (`labels` defaults to `None`), so every argument may be omitted. -/
def SemanticParsingTaskConfig.make
    (model : Option (AbstractConfig "RNNGParser.Config"))
    (trainer : Option (AbstractConfig "HogwildTrainer.Config"))
    (data_handler : Option (AbstractConfig "CompositionalDataHandler.Config"))
    (labels : Option (Option (AbstractConfig "WordLabelConfig")))
    (metric_reporter : Option (AbstractConfig "CompositionalMetricReporter.Config")) :
    SemanticParsingTaskConfig :=
  { model := model.getD (AbstractConfig.new "RNNGParser.Config")
    trainer := trainer.getD (AbstractConfig.new "HogwildTrainer.Config")
    data_handler := data_handler.getD
      (AbstractConfig.new "CompositionalDataHandler.Config")
    labels := labels.getD none
    metric_reporter := metric_reporter.getD
      (AbstractConfig.new "CompositionalMetricReporter.Config") }

/-- The field record of `KDDocClassificationTask.Config`. -/
structure KDDocClassificationTaskConfig where
  model : AbstractConfig "DocModel.Config"
  trainer : AbstractConfig "Trainer.Config"
  features : AbstractConfig "DocClassification.ModelInputConfig"
  labels : AbstractConfig "KDDocClassification.TargetConfig"
  data_handler : AbstractConfig "KDDocClassificationDataHandler.Config"
  metric_reporter : AbstractConfig "ClassificationMetricReporter.Config"
deriving DecidableEq

/-- Construction of `KDDocClassificationTask.Config`: every field has a
declared default, so every argument may be omitted. -/
def KDDocClassificationTaskConfig.make
    (model : Option (AbstractConfig "DocModel.Config"))
    (trainer : Option (AbstractConfig "Trainer.Config"))
    (features : Option (AbstractConfig "DocClassification.ModelInputConfig"))
    (labels : Option (AbstractConfig "KDDocClassification.TargetConfig"))
    (data_handler : Option (AbstractConfig "KDDocClassificationDataHandler.Config"))
    (metric_reporter : Option (AbstractConfig "ClassificationMetricReporter.Config")) :
    KDDocClassificationTaskConfig :=
  { model := model.getD (AbstractConfig.new "DocModel.Config")
    trainer := trainer.getD (AbstractConfig.new "Trainer.Config")
    features := features.getD
      (AbstractConfig.new "DocClassification.ModelInputConfig")
    labels := labels.getD (AbstractConfig.new "KDDocClassification.TargetConfig")
    data_handler := data_handler.getD
      (AbstractConfig.new "KDDocClassificationDataHandler.Config")
    metric_reporter := metric_reporter.getD
      (AbstractConfig.new "ClassificationMetricReporter.Config") }

/-- Last value associated with key `k` in a list of pairs (what a Python dict
build keeps for a repeated key), `none` if the key never occurs. -/
def lastVal {α : Type} (k : String) : List (String × α) → Option α
  | [] => none
  | p :: rest => if p.1 = k then (lastVal k rest).or (some p.2) else lastVal k rest

theorem sequenceOpt_map_eq_some {β δ : Type} (l : List β) (f : β → Option δ)
    (g : β → δ) (h : ∀ x ∈ l, f x = some (g x)) :
    sequenceOpt (l.map f) = some (l.map g) := by
  induction l with
  | nil => rfl
  | cons a t ih =>
    have ha := h a (List.mem_cons_self a t)
    have ht := ih (fun x hx => h x (List.mem_cons_of_mem a hx))
    simp [sequenceOpt, ha, ht]

theorem sequenceOpt_map_some {β : Type} (l : List β) :
    sequenceOpt (l.map some) = some l := by
  simpa using sequenceOpt_map_eq_some l some id (fun _ _ => rfl)

theorem zip3_length {a b c : Type} (xs : List a) (ys : List b) (zs : List c) :
    (zip3 xs ys zs).length = min xs.length (min ys.length zs.length) := by
  induction xs generalizing ys zs with
  | nil => simp [zip3]
  | cons x xs ih =>
    cases ys with
    | nil => simp [zip3]
    | cons y ys =>
      cases zs with
      | nil => simp [zip3]
      | cons z zs =>
        simp only [zip3, List.length_cons, ih]
        omega

theorem mem_zip3 {a b c : Type} {t : a × b × c} :
    ∀ {xs : List a} {ys : List b} {zs : List c}, t ∈ zip3 xs ys zs →
      t.1 ∈ xs ∧ t.2.1 ∈ ys ∧ t.2.2 ∈ zs := by
  intro xs
  induction xs with
  | nil => intro ys zs h; simp [zip3] at h
  | cons x xs ih =>
    intro ys zs h
    cases ys with
    | nil => simp [zip3] at h
    | cons y ys =>
      cases zs with
      | nil => simp [zip3] at h
      | cons z zs =>
        rcases List.mem_cons.1 h with h1 | h2
        · subst h1; simp
        · have h3 := ih h2
          exact ⟨List.mem_cons_of_mem _ h3.1, List.mem_cons_of_mem _ h3.2.1,
            List.mem_cons_of_mem _ h3.2.2⟩

theorem zip3_map_third {a b c : Type} :
    ∀ (xs : List a) (ys : List b) (zs : List c), xs.length = zs.length →
      ys.length = zs.length → (zip3 xs ys zs).map (fun t => t.2.2) = zs := by
  intro xs
  induction xs with
  | nil =>
    intro ys zs h1 _
    have : zs = [] := List.length_eq_zero.1 h1.symm
    subst this; rfl
  | cons x xs ih =>
    intro ys zs h1 h2
    cases zs with
    | nil => simp at h1
    | cons z zs =>
      cases ys with
      | nil => simp at h2
      | cons y ys =>
        simp only [zip3, List.map_cons]
        rw [ih ys zs (by simpa using h1) (by simpa using h2)]

theorem zipGen_map_some {a b : Type} :
    ∀ (xs : List a) (ys : List b),
      zipGen (xs.map some) (ys.map some) = some (xs.zip ys) := by
  intro xs
  induction xs with
  | nil => intro ys; rfl
  | cons x xs ih =>
    intro ys
    cases ys with
    | nil => rfl
    | cons y ys => simp [zipGen, ih]

theorem zip_map_fst_take {a b : Type} :
    ∀ (xs : List a) (ys : List b),
      (xs.zip ys).map Prod.fst = xs.take ys.length := by
  intro xs
  induction xs with
  | nil => intro ys; simp
  | cons x xs ih =>
    intro ys
    cases ys with
    | nil => simp
    | cons y ys => simp [ih]

theorem dictInsert_of_not_mem {α : Type} (k : String) (v : α) :
    ∀ (d : List (String × α)), k ∉ d.map Prod.fst →
      dictInsert d k v = d ++ [(k, v)] := by
  intro d
  induction d with
  | nil => intro _; rfl
  | cons p rest ih =>
    intro h
    have hpk : ¬p.1 = k := by
      intro he; exact h (by simp [he.symm])
    have hrest : k ∉ rest.map Prod.fst := by
      intro hm; exact h (by simp [hm])
    rw [dictInsert, if_neg hpk, ih hrest, List.cons_append]

theorem foldl_dictInsert_of_nodup {α : Type} :
    ∀ (ps acc : List (String × α)),
      ((acc ++ ps).map Prod.fst).Nodup →
      ps.foldl (fun d p => dictInsert d p.1 p.2) acc = acc ++ ps := by
  intro ps
  induction ps with
  | nil => intro acc _; simp
  | cons p rest ih =>
    intro acc h
    have h' : ((acc ++ [p] ++ rest).map Prod.fst).Nodup := by
      rw [List.append_assoc, List.singleton_append]; exact h
    have hk : p.1 ∉ acc.map Prod.fst := by
      intro hm
      rw [List.map_append, List.nodup_append] at h
      exact h.2.2 hm (by simp)
    rw [List.foldl_cons, dictInsert_of_not_mem p.1 p.2 acc hk]
    rw [ih (acc ++ [p]) (by simpa using h')]
    simp

theorem dictOfPairs_of_nodup {α : Type} (ps : List (String × α))
    (h : (ps.map Prod.fst).Nodup) : dictOfPairs ps = ps := by
  simpa using foldl_dictInsert_of_nodup ps [] (by simpa using h)

theorem score_with_name_of_nodup {α : Type} (names : List String) (s : List α)
    (h : names.Nodup) : score_with_name names s = names.zip s := by
  apply dictOfPairs_of_nodup
  rw [zip_map_fst_take]
  exact h.sublist (List.take_sublist _ _)

theorem dictLookup_dictInsert {α : Type} (k q : String) (v : α) :
    ∀ (d : List (String × α)),
      dictLookup q (dictInsert d k v) =
        if k = q then some v else dictLookup q d := by
  intro d
  induction d with
  | nil => simp [dictInsert, dictLookup]
  | cons p rest ih =>
    by_cases hpk : p.1 = k
    · subst hpk
      simp only [dictInsert, if_pos rfl, dictLookup]
      by_cases hpq : p.1 = q <;> simp [hpq]
    · simp only [dictInsert, if_neg hpk, dictLookup, ih]
      by_cases hpq : p.1 = q
      · have : ¬k = q := fun he => hpk (he ▸ hpq)
        simp [hpq, this]
      · simp [hpq]

theorem dictLookup_foldl_dictInsert {α : Type} (k : String) :
    ∀ (ps acc : List (String × α)),
      dictLookup k (ps.foldl (fun d p => dictInsert d p.1 p.2) acc) =
        (lastVal k ps).or (dictLookup k acc) := by
  intro ps
  induction ps with
  | nil => intro acc; simp [lastVal]
  | cons p rest ih =>
    intro acc
    rw [List.foldl_cons, ih, dictLookup_dictInsert]
    by_cases hk : p.1 = k
    · simp only [lastVal, if_pos hk, Option.or_assoc, Option.or_some]
    · simp only [lastVal, if_neg hk]

theorem dictLookup_dictOfPairs {α : Type} (k : String) (ps : List (String × α)) :
    dictLookup k (dictOfPairs ps) = lastVal k ps := by
  have := dictLookup_foldl_dictInsert k ps []
  simpa [dictOfPairs, dictLookup] using this

theorem dictInsert_keys_toFinset {α : Type} (k : String) (v : α) :
    ∀ (d : List (String × α)),
      ((dictInsert d k v).map Prod.fst).toFinset =
        insert k (d.map Prod.fst).toFinset := by
  intro d
  induction d with
  | nil => simp [dictInsert]
  | cons p rest ih =>
    by_cases hpk : p.1 = k
    · subst hpk
      simp [dictInsert]
    · simp only [dictInsert, if_neg hpk, List.map_cons, List.toFinset_cons, ih]
      rw [Finset.Insert.comm]

theorem dictInsert_keys_nodup {α : Type} (k : String) (v : α) :
    ∀ (d : List (String × α)), (d.map Prod.fst).Nodup →
      ((dictInsert d k v).map Prod.fst).Nodup := by
  intro d
  induction d with
  | nil => intro _; simp [dictInsert]
  | cons p rest ih =>
    intro h
    simp only [List.map_cons, List.nodup_cons] at h
    by_cases hpk : p.1 = k
    · subst hpk
      simpa [dictInsert] using h
    · simp only [dictInsert, if_neg hpk, List.map_cons, List.nodup_cons]
      refine ⟨?_, ih h.2⟩
      intro hm
      have : p.1 ∈ (insert k (rest.map Prod.fst).toFinset : Finset String) := by
        rw [← dictInsert_keys_toFinset k v rest]
        exact List.mem_toFinset.2 hm
      rcases Finset.mem_insert.1 this with h1 | h2
      · exact hpk h1
      · exact h.1 (List.mem_toFinset.1 h2)

theorem foldl_dictInsert_length {α : Type} :
    ∀ (ps acc : List (String × α)), ((acc.map Prod.fst).Nodup) →
      (ps.foldl (fun d p => dictInsert d p.1 p.2) acc).length =
        ((acc.map Prod.fst).toFinset ∪ (ps.map Prod.fst).toFinset).card := by
  intro ps
  induction ps with
  | nil =>
    intro acc hacc
    rw [List.foldl_nil, List.map_nil, List.toFinset_nil, Finset.union_empty,
      List.card_toFinset, List.dedup_eq_self.2 hacc, List.length_map]
  | cons p rest ih =>
    intro acc hacc
    rw [List.foldl_cons, ih _ (dictInsert_keys_nodup p.1 p.2 acc hacc),
      dictInsert_keys_toFinset, List.map_cons, List.toFinset_cons,
      Finset.insert_union, Finset.union_insert]

theorem dictOfPairs_length {α : Type} (ps : List (String × α)) :
    (dictOfPairs ps).length = (ps.map Prod.fst).dedup.length := by
  have := foldl_dictInsert_length ps [] (by simp)
  simpa [dictOfPairs, List.card_toFinset] using this

theorem dedup_length_lt_of_not_nodup {α : Type} [DecidableEq α] (l : List α)
    (h : ¬l.Nodup) : l.dedup.length < l.length := by
  have hle : l.dedup.length ≤ l.length := (List.dedup_sublist l).length_le
  rcases Nat.lt_or_ge l.dedup.length l.length with hlt | hge
  · exact hlt
  · exfalso
    have heq : l.dedup = l :=
      (List.dedup_sublist l).eq_of_length (Nat.le_antisymm hle hge)
    exact h (heq ▸ List.nodup_dedup l)

theorem getD_eq_get_of_lt {β : Type} (l : List β) (d : β) (n : Nat)
    (h : n < l.length) : l.getD n d = l.get ⟨n, h⟩ := by
  simp [List.getD, List.get?_eq_get h, List.getElem?_eq_getElem h]

theorem DocClassificationTask.format_one_eq {α : Type} (names : List String)
    (p : Nat) (s : List α) (h : p < names.length) :
    DocClassificationTask.format_one names p s =
      some { prediction := names.getD p "", score := score_with_name names s } := by
  rw [DocClassificationTask.format_one, List.get?_eq_get h, Option.map_some',
    getD_eq_get_of_lt names "" p h]

theorem WordTaggingTask.format_token_eq {α : Type} (names : List String)
    (p : Nat) (s : List α) (tr : Nat × Nat) (h : p < names.length) :
    WordTaggingTask.format_token names p s tr =
      some { prediction := names.getD p "", score := score_with_name names s,
             token_range := tr } := by
  rw [WordTaggingTask.format_token, List.get?_eq_get h, Option.map_some',
    getD_eq_get_of_lt names "" p h]

/-- C1 as stated is refuted only at duplicated vocabularies; this is the
amended form: for every call whose prediction indices are valid, whose score
vectors have one entry per vocabulary name, and whose vocabulary names are
pairwise distinct, each yielded record's `prediction` is the vocabulary name
at the predicted index and its `score` pairs each vocabulary name with its
score, one entry per name. -/
theorem claim_C1 {α γ : Type} (predictions : List Nat) (scores : List (List α))
    (context : Context γ) (target_meta : TargetMeta)
    (hnodup : target_meta.vocab.itos.Nodup)
    (hvalid : ∀ p ∈ predictions, p < target_meta.vocab.itos.length)
    (hlen : ∀ s ∈ scores, s.length = target_meta.vocab.itos.length) :
    DocClassificationTask.format_prediction predictions scores context target_meta =
      some ((predictions.zip scores).map fun ps =>
        { prediction := target_meta.vocab.itos.getD ps.1 ""
          score := target_meta.vocab.itos.zip ps.2 }) ∧
    ((predictions.zip scores).map fun ps =>
        ({ prediction := target_meta.vocab.itos.getD ps.1 ""
           score := target_meta.vocab.itos.zip ps.2 } : DocRecord α)).map
        (fun r => r.score.map Prod.fst) =
      (predictions.zip scores).map (fun _ => target_meta.vocab.itos) := by
  constructor
  · apply sequenceOpt_map_eq_some
    intro ps hps
    have hp : ps.1 < target_meta.vocab.itos.length :=
      hvalid ps.1 (List.of_mem_zip (by exact hps)).1
    rw [DocClassificationTask.format_one_eq _ _ _ hp,
      score_with_name_of_nodup _ _ hnodup]
  · rw [List.map_map]
    apply List.map_congr_left
    intro ps hps
    have hsl : ps.2.length = target_meta.vocab.itos.length :=
      hlen ps.2 (List.of_mem_zip (by exact hps)).2
    simp only [Function.comp]
    rw [zip_map_fst_take, hsl, List.take_length]

/-- C1 counterexample: with the duplicated vocabulary `["A", "A"]`, a valid
prediction index `0` and a score vector `[1, 2]` of one entry per vocabulary
name, the yielded record's score mapping is `{"A": 2}`: it has fewer entries
than the vocabulary has names, and does not map the first occurrence of `"A"`
to its score `1` — refuting the claim as stated. -/
theorem claim_C1_counterexample :
    DocClassificationTask.format_prediction [0] [[(1 : Int), 2]]
        ({ token_range := [], extras := () } : Context Unit)
        { vocab := { itos := ["A", "A"] } } =
      some [{ prediction := "A", score := [("A", 2)] }] ∧
    ¬([("A", (2 : Int))].length = ["A", "A"].length) ∧
    dictLookup "A" [("A", (2 : Int))] ≠ some 1 := by
  exact ⟨rfl, by decide, by decide⟩

/-- Witness for C1: the spec's own example — vocabulary `["POS", "NEG"]`,
prediction index `0`, scores `[0.9, 0.1]` — yields
`{"prediction": "POS", "score": {"POS": 0.9, "NEG": 0.1}}`. -/
theorem claim_C1_witness :
    (({ vocab := { itos := ["POS", "NEG"] } } : TargetMeta).vocab.itos.Nodup ∧
      (∀ p ∈ [0], p < (["POS", "NEG"] : List String).length) ∧
      (∀ s ∈ [[(9 : ℚ)/10, 1/10]], s.length = (["POS", "NEG"] : List String).length)) ∧
    DocClassificationTask.format_prediction [0] [[(9 : ℚ)/10, 1/10]]
        ({ token_range := [], extras := () } : Context Unit)
        { vocab := { itos := ["POS", "NEG"] } } =
      some [{ prediction := "POS", score := [("POS", 9/10), ("NEG", 1/10)] }] := by
  refine ⟨⟨by decide, by decide, by decide⟩, ?_⟩
  exact (claim_C1 [0] [[(9 : ℚ)/10, 1/10]]
    ({ token_range := [], extras := () } : Context Unit)
    { vocab := { itos := ["POS", "NEG"] } }
    (by decide) (by decide) (by decide)).1

/-- C8: in the score dicts built by `DocClassificationTask.format_prediction`
and by `WordTaggingTask.format_prediction`'s per-token records, a duplicated
vocabulary name keeps only the last score associated with it, so the mapping
has strictly fewer entries than the vocabulary has elements. -/
theorem claim_C8 {α γ : Type} (names : List String) (s : List α) (p : Nat)
    (tr : Nat × Nat) (context : Context γ)
    (hdup : ¬names.Nodup) (hs : s.length = names.length)
    (hp : p < names.length) :
    (score_with_name names s).length < names.length ∧
    (names.map fun n => dictLookup n (score_with_name names s)) =
      (names.map fun n => lastVal n (names.zip s)) ∧
    DocClassificationTask.format_prediction [p] [s] context
        { vocab := { itos := names } } =
      some [{ prediction := names.getD p "", score := score_with_name names s }] ∧
    WordTaggingTask.format_token names p s tr =
      some { prediction := names.getD p "", score := score_with_name names s,
             token_range := tr } := by
  refine ⟨?_, ?_, ?_, WordTaggingTask.format_token_eq names p s tr hp⟩
  · rw [score_with_name, dictOfPairs_length, zip_map_fst_take, hs,
      List.take_length]
    exact dedup_length_lt_of_not_nodup names hdup
  · apply List.map_congr_left
    intro n _
    rw [score_with_name, dictLookup_dictOfPairs]
  · have h1 : ([p].zip [s]) = [(p, s)] := rfl
    apply sequenceOpt_map_eq_some ([p].zip [s])
      (fun ps => DocClassificationTask.format_one names ps.1 ps.2)
      (fun ps => { prediction := names.getD ps.1 "",
                   score := score_with_name names ps.2 })
    intro ps hps
    rw [h1, List.mem_singleton] at hps
    subst hps
    exact DocClassificationTask.format_one_eq names p s hp

/-- Witness for C8 at the duplicated vocabulary `["A", "A"]` with scores
`[1, 2]`: the mapping is `{"A": 2}` (one entry, last score kept). -/
theorem claim_C8_witness :
    ((¬(["A", "A"] : List String).Nodup) ∧
      ([(1 : Int), 2] : List Int).length = (["A", "A"] : List String).length ∧
      0 < (["A", "A"] : List String).length) ∧
    (score_with_name ["A", "A"] [(1 : Int), 2]).length <
      (["A", "A"] : List String).length ∧
    ((["A", "A"] : List String).map fun n =>
        dictLookup n (score_with_name ["A", "A"] [(1 : Int), 2])) =
      ((["A", "A"] : List String).map fun n =>
        lastVal n ((["A", "A"] : List String).zip [(1 : Int), 2])) := by
  have h := claim_C8 ["A", "A"] [(1 : Int), 2] 0 (0, 1)
    ({ token_range := [], extras := () } : Context Unit)
    (by decide) (by decide) (by decide)
  exact ⟨⟨by decide, by decide, by decide⟩, h.1, h.2.1⟩

theorem WordTaggingTask.format_example_eq {α : Type} (names : List String)
    (pred : List Nat) (score : List (List α)) (trs : List (Nat × Nat))
    (hvalid : ∀ x ∈ pred, x < names.length) :
    WordTaggingTask.format_example names pred score trs =
      some ((zip3 pred score trs).map fun w =>
        { prediction := names.getD w.1 ""
          score := score_with_name names w.2.1
          token_range := w.2.2 }) := by
  apply sequenceOpt_map_eq_some
  intro w hw
  exact WordTaggingTask.format_token_eq names w.1 w.2.1 w.2.2
    (hvalid w.1 (mem_zip3 hw).1)

theorem WordTaggingTask.word_format_prediction_eq {α γ : Type}
    (predictions : List (List Nat)) (scores : List (List (List α)))
    (context : Context γ) (target_meta : TargetMeta)
    (hvalid : ∀ q ∈ predictions, ∀ x ∈ q, x < target_meta.vocab.itos.length) :
    WordTaggingTask.format_prediction predictions scores context target_meta =
      some ((zip3 predictions scores context.token_range).map fun t =>
        (zip3 t.1 t.2.1 t.2.2).map fun w =>
          { prediction := target_meta.vocab.itos.getD w.1 ""
            score := score_with_name target_meta.vocab.itos w.2.1
            token_range := w.2.2 }) := by
  apply sequenceOpt_map_eq_some
  intro t ht
  exact WordTaggingTask.format_example_eq _ t.1 t.2.1 t.2.2
    (fun x hx => hvalid t.1 (mem_zip3 ht).1 x hx)

theorem DocClassificationTask.doc_format_prediction_eq {α γ : Type}
    (predictions : List Nat) (scores : List (List α)) (context : Context γ)
    (target_meta : TargetMeta)
    (hvalid : ∀ p ∈ predictions, p < target_meta.vocab.itos.length) :
    DocClassificationTask.format_prediction predictions scores context target_meta =
      some ((predictions.zip scores).map fun ps =>
        { prediction := target_meta.vocab.itos.getD ps.1 ""
          score := score_with_name target_meta.vocab.itos ps.2 }) := by
  apply sequenceOpt_map_eq_some
  intro ps hps
  exact DocClassificationTask.format_one_eq _ ps.1 ps.2
    (hvalid ps.1 (List.of_mem_zip (by exact hps)).1)

/-- C3: when the per-example input sequences are aligned — predictions,
scores and the context's token-range list all have one entry per example, and
within each example the prediction and score lists are as long as its token
ranges — `WordTaggingTask.format_prediction` yields exactly one record
sequence per input example, and each sequence has exactly that example's
token-range count of records. -/
theorem claim_C3 {α γ : Type} (predictions : List (List Nat))
    (scores : List (List (List α))) (context : Context γ)
    (target_meta : TargetMeta)
    (hs : scores.length = predictions.length)
    (htr : context.token_range.length = predictions.length)
    (hinner : ∀ t ∈ zip3 predictions scores context.token_range,
      t.1.length = t.2.2.length ∧ t.2.1.length = t.2.2.length)
    (hvalid : ∀ q ∈ predictions, ∀ x ∈ q, x < target_meta.vocab.itos.length) :
    ∃ rss, WordTaggingTask.format_prediction predictions scores context
        target_meta = some rss ∧
      rss.length = predictions.length ∧
      rss.map List.length = context.token_range.map List.length := by
  refine ⟨_, WordTaggingTask.word_format_prediction_eq predictions scores context
    target_meta hvalid, ?_, ?_⟩
  · rw [List.length_map, zip3_length, hs, htr]
    omega
  · rw [List.map_map]
    have hpt : (zip3 predictions scores context.token_range).map
        (List.length ∘ fun t => (zip3 t.1 t.2.1 t.2.2).map fun w =>
          ({ prediction := target_meta.vocab.itos.getD w.1 ""
             score := score_with_name target_meta.vocab.itos w.2.1
             token_range := w.2.2 } : WordRecord α)) =
        (zip3 predictions scores context.token_range).map
          (fun t => t.2.2.length) := by
      apply List.map_congr_left
      intro t ht
      have h2 := hinner t ht
      simp only [Function.comp, List.length_map, zip3_length]
      omega
    rw [hpt]
    have hthird : (zip3 predictions scores context.token_range).map
        (fun t => t.2.2.length) =
        ((zip3 predictions scores context.token_range).map
          (fun t => t.2.2)).map List.length := by
      rw [List.map_map]; rfl
    rw [hthird, zip3_map_third predictions scores context.token_range
      (by omega) (by omega)]

/-- Witness for C3 with two aligned examples of one and two tokens. -/
theorem claim_C3_witness :
    (([[[(1 : Int)]], [[2], [3]]] : List (List (List Int))).length =
        ([[0], [1, 0]] : List (List Nat)).length ∧
      ([[(0, 1)], [(2, 3), (4, 5)]] : List (List (Nat × Nat))).length =
        ([[0], [1, 0]] : List (List Nat)).length) ∧
    ∃ rss, WordTaggingTask.format_prediction [[0], [1, 0]]
        [[[(1 : Int)]], [[2], [3]]]
        ({ token_range := [[(0, 1)], [(2, 3), (4, 5)]], extras := () } : Context Unit)
        { vocab := { itos := ["X", "Y"] } } = some rss ∧
      rss.length = ([[0], [1, 0]] : List (List Nat)).length ∧
      rss.map List.length =
        ([[(0, 1)], [(2, 3), (4, 5)]] : List (List (Nat × Nat))).map List.length := by
  refine ⟨⟨by decide, by decide⟩, ?_⟩
  exact claim_C3 [[0], [1, 0]] [[[(1 : Int)]], [[2], [3]]]
    ({ token_range := [[(0, 1)], [(2, 3), (4, 5)]], extras := () } : Context Unit)
    { vocab := { itos := ["X", "Y"] } }
    (by decide) (by decide) (by decide) (by decide)

/-- C5: on mismatched input lengths neither formatter fails; both silently
truncate to the shortest zipped sequence — the document formatter to
`min |predictions| |scores|`, the word-tagging formatter to the three-way
minimum at the example level and again at the token level. -/
theorem claim_C5 {α γ : Type} (dpred : List Nat) (dscores : List (List α))
    (wpred : List (List Nat)) (wscores : List (List (List α)))
    (context : Context γ) (dmeta wmeta : TargetMeta)
    (hdv : ∀ p ∈ dpred, p < dmeta.vocab.itos.length)
    (hwv : ∀ q ∈ wpred, ∀ x ∈ q, x < wmeta.vocab.itos.length) :
    (∃ rs, DocClassificationTask.format_prediction dpred dscores context dmeta =
        some rs ∧ rs.length = min dpred.length dscores.length) ∧
    (∃ rss, WordTaggingTask.format_prediction wpred wscores context wmeta =
        some rss ∧
      rss.length = min wpred.length (min wscores.length
        context.token_range.length) ∧
      rss.map List.length = (zip3 wpred wscores context.token_range).map
        (fun t => min t.1.length (min t.2.1.length t.2.2.length))) := by
  constructor
  · refine ⟨_, DocClassificationTask.doc_format_prediction_eq dpred dscores context
      dmeta hdv, ?_⟩
    rw [List.length_map, List.length_zip]
  · refine ⟨_, WordTaggingTask.word_format_prediction_eq wpred wscores context
      wmeta hwv, ?_, ?_⟩
    · rw [List.length_map, zip3_length]
    · rw [List.map_map]
      apply List.map_congr_left
      intro t _
      simp only [Function.comp, List.length_map, zip3_length]

/-- Witness for C5 with deliberately mismatched lengths: three document
predictions against one score vector; two word examples against one score
list and one token-range list, with two token predictions against one range. -/
theorem claim_C5_witness :
    ((∀ p ∈ ([0, 1, 0] : List Nat), p < 2) ∧
      ([0, 1, 0] : List Nat).length ≠ ([[(5 : Int), 6]] : List (List Int)).length) ∧
    (∃ rs, DocClassificationTask.format_prediction [0, 1, 0] [[(5 : Int), 6]]
        ({ token_range := [[(0, 1)]], extras := () } : Context Unit)
        { vocab := { itos := ["P", "N"] } } = some rs ∧
      rs.length = min ([0, 1, 0] : List Nat).length
        ([[(5 : Int), 6]] : List (List Int)).length) ∧
    (∃ rss, WordTaggingTask.format_prediction [[0, 1], [0]]
        [[[(1 : Int)], [2]]]
        ({ token_range := [[(0, 1)]], extras := () } : Context Unit)
        { vocab := { itos := ["P", "N"] } } = some rss ∧
      rss.length = min ([[0, 1], [0]] : List (List Nat)).length
        (min ([[[(1 : Int)], [2]]] : List (List (List Int))).length
          ([[(0, 1)]] : List (List (Nat × Nat))).length) ∧
      rss.map List.length = (zip3 [[0, 1], [0]] [[[(1 : Int)], [2]]]
          [[(0, 1)]]).map
        (fun t => min t.1.length (min t.2.1.length t.2.2.length))) := by
  have h := claim_C5 [0, 1, 0] [[(5 : Int), 6]] [[0, 1], [0]]
    [[[(1 : Int)], [2]]]
    ({ token_range := [[(0, 1)]], extras := () } : Context Unit)
    { vocab := { itos := ["P", "N"] } } { vocab := { itos := ["P", "N"] } }
    (by decide) (by decide)
  exact ⟨⟨by decide, by decide⟩, h.1, h.2⟩

/-- C4: joint formatting is the pairwise zip of the document and word-tagging
formatters applied to the respective halves of the inputs; with per-side
aligned scores and token ranges its length is
`min |doc_preds| |word_preds|`, and the i-th record pairs the i-th document
record (`intent`) with the i-th word-tagging record sequence (`slot`). -/
theorem claim_C4 {α γ : Type} (dpred : List Nat) (dscores : List (List α))
    (wpred : List (List Nat)) (wscores : List (List (List α)))
    (context : Context γ) (dmeta wmeta : TargetMeta)
    (hdv : ∀ p ∈ dpred, p < dmeta.vocab.itos.length)
    (hwv : ∀ q ∈ wpred, ∀ x ∈ q, x < wmeta.vocab.itos.length)
    (hds : dscores.length = dpred.length)
    (hws : wscores.length = wpred.length)
    (htr : context.token_range.length = wpred.length) :
    ∃ ds ws,
      DocClassificationTask.format_prediction dpred dscores context dmeta =
        some ds ∧
      WordTaggingTask.format_prediction wpred wscores context wmeta = some ws ∧
      JointTextTask.format_prediction (dpred, wpred) (dscores, wscores) context
          (dmeta, wmeta) =
        some ((ds.zip ws).map fun pr => { intent := pr.1, slot := pr.2 }) ∧
      (ds.zip ws).length = min dpred.length wpred.length := by
  have hdstream : DocClassificationTask.format_stream dpred dscores context dmeta =
      ((dpred.zip dscores).map fun ps =>
        ({ prediction := dmeta.vocab.itos.getD ps.1 ""
           score := score_with_name dmeta.vocab.itos ps.2 } : DocRecord α)).map
        some := by
    rw [DocClassificationTask.format_stream, List.map_map]
    apply List.map_congr_left
    intro ps hps
    exact DocClassificationTask.format_one_eq _ ps.1 ps.2
      (hdv ps.1 (List.of_mem_zip (by exact hps)).1)
  have hwstream : WordTaggingTask.format_stream wpred wscores context wmeta =
      ((zip3 wpred wscores context.token_range).map fun t =>
        (zip3 t.1 t.2.1 t.2.2).map fun w =>
          ({ prediction := wmeta.vocab.itos.getD w.1 ""
             score := score_with_name wmeta.vocab.itos w.2.1
             token_range := w.2.2 } : WordRecord α)).map some := by
    rw [WordTaggingTask.format_stream, List.map_map]
    apply List.map_congr_left
    intro t ht
    exact WordTaggingTask.format_example_eq _ t.1 t.2.1 t.2.2
      (fun x hx => hwv t.1 (mem_zip3 ht).1 x hx)
  refine ⟨(dpred.zip dscores).map fun ps =>
      ({ prediction := dmeta.vocab.itos.getD ps.1 ""
         score := score_with_name dmeta.vocab.itos ps.2 } : DocRecord α),
    (zip3 wpred wscores context.token_range).map fun t =>
      (zip3 t.1 t.2.1 t.2.2).map fun w =>
        ({ prediction := wmeta.vocab.itos.getD w.1 ""
           score := score_with_name wmeta.vocab.itos w.2.1
           token_range := w.2.2 } : WordRecord α), ?_, ?_, ?_, ?_⟩
  · rw [DocClassificationTask.format_prediction, hdstream, sequenceOpt_map_some]
  · rw [WordTaggingTask.format_prediction, hwstream, sequenceOpt_map_some]
  · rw [JointTextTask.format_prediction]
    show (zipGen (DocClassificationTask.format_stream dpred dscores context dmeta)
      (WordTaggingTask.format_stream wpred wscores context wmeta)).map _ = _
    rw [hdstream, hwstream, zipGen_map_some, Option.map_some']
  · rw [List.length_zip, List.length_map, List.length_zip, List.length_map,
      zip3_length, hds, hws, htr]
    omega

/-- Witness for C4 pairing one document prediction with one word example. -/
theorem claim_C4_witness :
    (([[(7 : Int), 8]] : List (List Int)).length = ([1] : List Nat).length ∧
      ([[(0, 2)]] : List (List (Nat × Nat))).length =
        ([[0]] : List (List Nat)).length) ∧
    ∃ ds ws,
      DocClassificationTask.format_prediction [1] [[(7 : Int), 8]]
          ({ token_range := [[(0, 2)]], extras := () } : Context Unit)
          { vocab := { itos := ["P", "N"] } } = some ds ∧
      WordTaggingTask.format_prediction [[0]] [[[(9 : Int)]]]
          ({ token_range := [[(0, 2)]], extras := () } : Context Unit)
          { vocab := { itos := ["S", "T"] } } = some ws ∧
      JointTextTask.format_prediction ([1], [[0]]) ([[(7 : Int), 8]], [[[9]]])
          ({ token_range := [[(0, 2)]], extras := () } : Context Unit)
          ({ vocab := { itos := ["P", "N"] } }, { vocab := { itos := ["S", "T"] } }) =
        some ((ds.zip ws).map fun pr => { intent := pr.1, slot := pr.2 }) ∧
      (ds.zip ws).length = min ([1] : List Nat).length
        ([[0]] : List (List Nat)).length := by
  refine ⟨⟨by decide, by decide⟩, ?_⟩
  exact claim_C4 [1] [[(7 : Int), 8]] [[0]] [[[9]]]
    ({ token_range := [[(0, 2)]], extras := () } : Context Unit)
    { vocab := { itos := ["P", "N"] } } { vocab := { itos := ["S", "T"] } }
    (by decide) (by decide) (by decide) (by decide) (by decide)

/-- C10: `JointTextTask.format_prediction` hands the same, unsliced context to
both sub-formatters (only predictions, scores and target metadata are split
into document/word halves); the document sub-formatter ignores the context
entirely, and the word-tagging sub-formatter reads only its token-range
field, so the slot records' token ranges come from the shared context. -/
theorem claim_C10 {α γa γb γc γd γe : Type} (dpred : List Nat)
    (dscores : List (List α)) (wpred : List (List Nat))
    (wscores : List (List (List α))) (dmeta wmeta : TargetMeta)
    (ctx : Context γa) (ctxB : Context γb) (ctxB2 : Context γc)
    (ctxC : Context γd) (ctxD : Context γe)
    (h : ctxC.token_range = ctxD.token_range) :
    JointTextTask.format_prediction (dpred, wpred) (dscores, wscores) ctx
        (dmeta, wmeta) =
      (zipGen (DocClassificationTask.format_stream dpred dscores ctx dmeta)
        (WordTaggingTask.format_stream wpred wscores ctx wmeta)).map
        (List.map fun pr => { intent := pr.1, slot := pr.2 }) ∧
    DocClassificationTask.format_prediction dpred dscores ctxB dmeta =
      DocClassificationTask.format_prediction dpred dscores ctxB2 dmeta ∧
    WordTaggingTask.format_prediction wpred wscores ctxC wmeta =
      WordTaggingTask.format_prediction wpred wscores ctxD wmeta := by
  refine ⟨rfl, rfl, ?_⟩
  rw [WordTaggingTask.format_prediction, WordTaggingTask.format_prediction,
    WordTaggingTask.format_stream, WordTaggingTask.format_stream, h]

/-- Witness for C10, with contexts whose non-token-range entries differ in
type and value. -/
theorem claim_C10_witness :
    (({ token_range := [[(0, 1)]], extras := 1 } : Context Nat).token_range =
      ({ token_range := [[(0, 1)]], extras := "y" } : Context String).token_range) ∧
    (JointTextTask.format_prediction ([0], [[0]]) ([[(1 : Int)]], [[[2]]])
        ({ token_range := [[(3, 4)]], extras := 5 } : Context Nat)
        ({ vocab := { itos := ["A"] } }, { vocab := { itos := ["B"] } }) =
      (zipGen (DocClassificationTask.format_stream [0] [[(1 : Int)]]
          ({ token_range := [[(3, 4)]], extras := 5 } : Context Nat)
          { vocab := { itos := ["A"] } })
        (WordTaggingTask.format_stream [[0]] [[[2]]]
          ({ token_range := [[(3, 4)]], extras := 5 } : Context Nat)
          { vocab := { itos := ["B"] } })).map
        (List.map fun pr => { intent := pr.1, slot := pr.2 })) ∧
    (DocClassificationTask.format_prediction [0] [[(1 : Int)]]
        ({ token_range := [], extras := "x" } : Context String)
        { vocab := { itos := ["A"] } } =
      DocClassificationTask.format_prediction [0] [[(1 : Int)]]
        ({ token_range := [[(9, 9)]], extras := true } : Context Bool)
        { vocab := { itos := ["A"] } }) ∧
    (WordTaggingTask.format_prediction [[0]] [[[(2 : Int)]]]
        ({ token_range := [[(0, 1)]], extras := 1 } : Context Nat)
        { vocab := { itos := ["B"] } } =
      WordTaggingTask.format_prediction [[0]] [[[(2 : Int)]]]
        ({ token_range := [[(0, 1)]], extras := "y" } : Context String)
        { vocab := { itos := ["B"] } }) := by
  have h := claim_C10 [0] [[(1 : Int)]] [[0]] [[[2]]]
    { vocab := { itos := ["A"] } } { vocab := { itos := ["B"] } }
    ({ token_range := [[(3, 4)]], extras := 5 } : Context Nat)
    ({ token_range := [], extras := "x" } : Context String)
    ({ token_range := [[(9, 9)]], extras := true } : Context Bool)
    ({ token_range := [[(0, 1)]], extras := 1 } : Context Nat)
    ({ token_range := [[(0, 1)]], extras := "y" } : Context String)
    rfl
  exact ⟨rfl, h.1, h.2.1, h.2.2⟩

theorem EnsembleTask.train_single_model_spec {Iter Model MR TC Opt Sch Res : Type}
    (self : EnsembleTask Iter Model MR TC Opt Sch Res) (train_config : TC)
    (model_id : Int) (rank world_size : Nat) (m : Model)
    (h0 : 0 ≤ model_id)
    (h1 : model_id < (self.model.models.length : Int))
    (hm : self.model.models.get? model_id.toNat = some m) :
    EnsembleTask.train_single_model self train_config model_id rank world_size =
      some ({ self with model := { models := (self.model.models.set model_id.toNat
          (self.trainer.train_single_model
            (self.data_handler.get_train_iter rank world_size)
            self.data_handler.get_eval_iter m self.metric_reporter train_config
            self.optimizer self.lr_scheduler).1) } },
        (self.trainer.train_single_model
          (self.data_handler.get_train_iter rank world_size)
          self.data_handler.get_eval_iter m self.metric_reporter train_config
          self.optimizer self.lr_scheduler).2) := by
  have hget : ∀ (hh : model_id.toNat < self.model.models.length),
      self.model.models.get ⟨model_id.toNat, hh⟩ = m := by
    intro hh
    rw [List.get?_eq_get hh] at hm
    exact Option.some.inj hm
  rw [EnsembleTask.train_single_model, dif_pos ⟨h0, h1⟩]
  simp only [hget]

/-- C2: for every ensemble task state — whatever its trainer does — a
`model_id` outside `[0, len(self.model.models))` makes `train_single_model`
fail its assertion: the call returns no trained state and no result, so no
training happens and no sub-model changes. -/
theorem claim_C2 {Iter Model MR TC Opt Sch Res : Type}
    (self : EnsembleTask Iter Model MR TC Opt Sch Res) (train_config : TC)
    (model_id : Int) (rank world_size : Nat)
    (h : ¬(0 ≤ model_id ∧ model_id < (self.model.models.length : Int))) :
    EnsembleTask.train_single_model self train_config model_id rank world_size =
      none := by
  rw [EnsembleTask.train_single_model, dif_neg h]

/-- Witness for C2: a two-sub-model ensemble rejects `model_id = 2`. -/
theorem claim_C2_witness :
    ¬((0 : Int) ≤ 2 ∧ (2 : Int) < (([10, 20] : List Nat).length : Int)) ∧
    EnsembleTask.train_single_model
      ({ model := { models := [10, 20] }
         trainer := { train_single_model := fun ti ei mo _ tc _ _ => (mo + ti + ei, tc * 2) }
         data_handler := { get_train_iter := fun r w => r + 10 * w, get_eval_iter := 7 }
         metric_reporter := 0
         optimizer := 0
         lr_scheduler := 0 } : EnsembleTask Nat Nat Nat Nat Nat Nat Nat)
      5 2 3 4 = none := by
  refine ⟨by decide, ?_⟩
  exact claim_C2 _ 5 2 3 4 (by decide)

/-- C6: for a valid `model_id`, `train_single_model` trains exactly the
sub-model at that index — handing the trainer the `(rank, world_size)`
partitioned training iterator, the full evaluation iterator, that sub-model,
the metric reporter, the train config, the optimizer and the lr scheduler —
and the resulting state replaces only position `model_id` of the sub-model
list (`List.set` leaves every other position unchanged), with every other
task attribute intact. -/
theorem claim_C6 {Iter Model MR TC Opt Sch Res : Type}
    (self : EnsembleTask Iter Model MR TC Opt Sch Res) (train_config : TC)
    (model_id : Int) (rank world_size : Nat) (m : Model)
    (h0 : 0 ≤ model_id)
    (h1 : model_id < (self.model.models.length : Int))
    (hm : self.model.models.get? model_id.toNat = some m) :
    EnsembleTask.train_single_model self train_config model_id rank world_size =
      some ({ self with model := { models := (self.model.models.set model_id.toNat
          (self.trainer.train_single_model
            (self.data_handler.get_train_iter rank world_size)
            self.data_handler.get_eval_iter m self.metric_reporter train_config
            self.optimizer self.lr_scheduler).1) } },
        (self.trainer.train_single_model
          (self.data_handler.get_train_iter rank world_size)
          self.data_handler.get_eval_iter m self.metric_reporter train_config
          self.optimizer self.lr_scheduler).2) :=
  EnsembleTask.train_single_model_spec self train_config model_id rank
    world_size m h0 h1 hm

/-- Witness for C6: training sub-model 1 of `[10, 20]` with `rank = 3`,
`world_size = 4` updates only that sub-model and returns the trainer's
result. -/
theorem claim_C6_witness :
    ((0 : Int) ≤ 1 ∧ (1 : Int) < (([10, 20] : List Nat).length : Int) ∧
      ([10, 20] : List Nat).get? (1 : Int).toNat = some 20) ∧
    EnsembleTask.train_single_model
      ({ model := { models := [10, 20] }
         trainer := { train_single_model := fun ti ei mo _ tc _ _ => (mo + ti + ei, tc * 2) }
         data_handler := { get_train_iter := fun r w => r + 10 * w, get_eval_iter := 7 }
         metric_reporter := 0
         optimizer := 0
         lr_scheduler := 0 } : EnsembleTask Nat Nat Nat Nat Nat Nat Nat)
      5 1 3 4 =
      some ({ model := { models := [10, 70] }
              trainer := { train_single_model := fun ti ei mo _ tc _ _ => (mo + ti + ei, tc * 2) }
              data_handler := { get_train_iter := fun r w => r + 10 * w, get_eval_iter := 7 }
              metric_reporter := 0
              optimizer := 0
              lr_scheduler := 0 }, 10) := by
  refine ⟨⟨by decide, by decide, by decide⟩, ?_⟩
  exact claim_C6
    ({ model := { models := [10, 20] }
       trainer := { train_single_model := fun ti ei mo _ tc _ _ => (mo + ti + ei, tc * 2) }
       data_handler := { get_train_iter := fun r w => r + 10 * w, get_eval_iter := 7 }
       metric_reporter := 0
       optimizer := 0
       lr_scheduler := 0 } : EnsembleTask Nat Nat Nat Nat Nat Nat Nat)
    5 1 3 4 20 (by decide) (by decide) (by decide)

/-- C9: on a valid `model_id` the method's result value is exactly what the
trainer's `train_single_model` returns, unmodified; and the call with `rank`
and `world_size` omitted behaves as the call with the declared defaults
`rank = 0, world_size = 1`, so the training iterator is
`get_train_iter(0, 1)`. -/
theorem claim_C9 {Iter Model MR TC Opt Sch Res : Type}
    (self : EnsembleTask Iter Model MR TC Opt Sch Res) (train_config : TC)
    (model_id : Int) (rank world_size : Nat) (m : Model)
    (h0 : 0 ≤ model_id)
    (h1 : model_id < (self.model.models.length : Int))
    (hm : self.model.models.get? model_id.toNat = some m) :
    (EnsembleTask.train_single_model self train_config model_id rank
        world_size).map Prod.snd =
      some (self.trainer.train_single_model
        (self.data_handler.get_train_iter rank world_size)
        self.data_handler.get_eval_iter m self.metric_reporter train_config
        self.optimizer self.lr_scheduler).2 ∧
    EnsembleTask.train_single_model_default self train_config model_id =
      EnsembleTask.train_single_model self train_config model_id 0 1 ∧
    (EnsembleTask.train_single_model_default self train_config model_id).map
        Prod.snd =
      some (self.trainer.train_single_model
        (self.data_handler.get_train_iter 0 1)
        self.data_handler.get_eval_iter m self.metric_reporter train_config
        self.optimizer self.lr_scheduler).2 := by
  refine ⟨?_, rfl, ?_⟩
  · rw [EnsembleTask.train_single_model_spec self train_config model_id rank
      world_size m h0 h1 hm, Option.map_some']
  · rw [EnsembleTask.train_single_model_default,
      EnsembleTask.train_single_model_spec self train_config model_id 0 1 m
        h0 h1 hm, Option.map_some']

/-- Witness for C9 on the concrete two-sub-model ensemble. -/
theorem claim_C9_witness :
    ((0 : Int) ≤ 0 ∧ (0 : Int) < (([10, 20] : List Nat).length : Int) ∧
      ([10, 20] : List Nat).get? (0 : Int).toNat = some 10) ∧
    (EnsembleTask.train_single_model
        ({ model := { models := [10, 20] }
           trainer := { train_single_model := fun ti ei mo _ tc _ _ => (mo + ti + ei, tc * 2) }
           data_handler := { get_train_iter := fun r w => r + 10 * w, get_eval_iter := 7 }
           metric_reporter := 0
           optimizer := 0
           lr_scheduler := 0 } : EnsembleTask Nat Nat Nat Nat Nat Nat Nat)
        5 0 3 4).map Prod.snd = some 10 ∧
    (EnsembleTask.train_single_model_default
        ({ model := { models := [10, 20] }
           trainer := { train_single_model := fun ti ei mo _ tc _ _ => (mo + ti + ei, tc * 2) }
           data_handler := { get_train_iter := fun r w => r + 10 * w, get_eval_iter := 7 }
           metric_reporter := 0
           optimizer := 0
           lr_scheduler := 0 } : EnsembleTask Nat Nat Nat Nat Nat Nat Nat)
        5 0).map Prod.snd = some 10 := by
  have h := claim_C9
    ({ model := { models := [10, 20] }
       trainer := { train_single_model := fun ti ei mo _ tc _ _ => (mo + ti + ei, tc * 2) }
       data_handler := { get_train_iter := fun r w => r + 10 * w, get_eval_iter := 7 }
       metric_reporter := 0
       optimizer := 0
       lr_scheduler := 0 } : EnsembleTask Nat Nat Nat Nat Nat Nat Nat)
    5 0 3 4 10 (by decide) (by decide) (by decide)
  exact ⟨⟨by decide, by decide, by decide⟩, h.1, h.2.2⟩

/-- C7: constructing any of the eleven task Config variants of the source
file while omitting an optional field yields the documented default
sub-configuration for that field (for `DocClassificationTask` the omitted
`trainer` is `Trainer.Config()`, for `EnsembleTask` it is
`EnsembleTrainer.Config()`; `Optional[...]` labels fields default to `None`,
`LMTask`'s union-typed data handler to `LanguageModelDataHandler.Config()`);
the only arguments without defaults — hence required — are `EnsembleTask`'s
`model` and `labels`, `JointTextTask`'s `labels` and
`ContextualIntentSlotTask`'s `labels`, as the `make` signatures record: every
other variant is constructed below from no arguments at all. -/
theorem claim_C7 :
    (∀ (model : EnsembleModelConfig) (labels : List TargetConfigBase),
      EnsembleTaskConfig.make model labels none none none =
        { model := model
          trainer := AbstractConfig.new "EnsembleTrainer.Config"
          labels := labels
          metric_reporter := .classification
            (AbstractConfig.new "ClassificationMetricReporter.Config")
          data_handler := AbstractConfig.new "JointModelDataHandler.Config" }) ∧
    (DocClassificationTaskConfig.make none none none none none none =
      { model := AbstractConfig.new "DocModel.Config"
        trainer := AbstractConfig.new "Trainer.Config"
        features := AbstractConfig.new "DocClassification.ModelInputConfig"
        labels := AbstractConfig.new "DocClassification.TargetConfig"
        data_handler := AbstractConfig.new "DocClassificationDataHandler.Config"
        metric_reporter := AbstractConfig.new "ClassificationMetricReporter.Config" }) ∧
    (∀ (labels : List TargetConfigBase),
      JointTextTaskConfig.make labels none none none none =
        { labels := labels
          model := AbstractConfig.new "JointModel.Config"
          trainer := AbstractConfig.new "Trainer.Config"
          data_handler := AbstractConfig.new "JointModelDataHandler.Config"
          metric_reporter := AbstractConfig.new "IntentSlotMetricReporter.Config" }) ∧
    (∀ (labels : List TargetConfigBase),
      ContextualIntentSlotTaskConfig.make labels none none none none none =
        { labels := labels
          features := AbstractConfig.new "ContextualIntentSlot.ModelInputConfig"
          model := AbstractConfig.new "ContextualIntentSlotModel.Config"
          trainer := AbstractConfig.new "Trainer.Config"
          data_handler := AbstractConfig.new
            "ContextualIntentSlotModelDataHandler.Config"
          metric_reporter := AbstractConfig.new "IntentSlotMetricReporter.Config" }) ∧
    (QueryDocumentPairwiseRankingTaskConfig.make none none none none none none =
      { features := AbstractConfig.new
          "QueryDocumentPairwiseRanking.ModelInputConfig"
        model := AbstractConfig.new "QueryDocumentPairwiseRankingModel.Config"
        data_handler := AbstractConfig.new
          "QueryDocumentPairwiseRankingDataHandler.Config"
        trainer := AbstractConfig.new "Trainer.Config"
        labels := none
        metric_reporter := AbstractConfig.new
          "PairwiseRankingMetricReporter.Config" }) ∧
    (WordTaggingTaskConfig.make none none none none none =
      { model := AbstractConfig.new "WordTaggingModel.Config"
        trainer := AbstractConfig.new "Trainer.Config"
        labels := AbstractConfig.new "WordLabelConfig"
        data_handler := AbstractConfig.new "JointModelDataHandler.Config"
        metric_reporter := AbstractConfig.new "WordTaggingMetricReporter.Config" }) ∧
    (LMTaskConfig.make none none none none none =
      { data_handler := .languageModel
          (AbstractConfig.new "LanguageModelDataHandler.Config")
        model := AbstractConfig.new "LMLSTM.Config"
        trainer := AbstractConfig.new "Trainer.Config"
        labels := none
        metric_reporter := AbstractConfig.new
          "LanguageModelMetricReporter.Config" }) ∧
    (PairClassificationTaskConfig.make none none none none none none =
      { features := AbstractConfig.new "PairClassification.ModelInputConfig"
        model := AbstractConfig.new "PairClassificationModel.Config"
        data_handler := AbstractConfig.new
          "PairClassificationDataHandler.Config"
        trainer := AbstractConfig.new "Trainer.Config"
        labels := AbstractConfig.new "PairClassification.TargetConfig"
        metric_reporter := AbstractConfig.new
          "ClassificationMetricReporter.Config" }) ∧
    (SeqNNTaskConfig.make none none none none none =
      { model := AbstractConfig.new "SeqNNModel.Config"
        trainer := AbstractConfig.new "Trainer.Config"
        labels := AbstractConfig.new "DocLabelConfig"
        data_handler := AbstractConfig.new "SeqModelDataHandler.Config"
        metric_reporter := AbstractConfig.new
          "ClassificationMetricReporter.Config" }) ∧
    (SemanticParsingTaskConfig.make none none none none none =
      { model := AbstractConfig.new "RNNGParser.Config"
        trainer := AbstractConfig.new "HogwildTrainer.Config"
        data_handler := AbstractConfig.new "CompositionalDataHandler.Config"
        labels := none
        metric_reporter := AbstractConfig.new
          "CompositionalMetricReporter.Config" }) ∧
    (KDDocClassificationTaskConfig.make none none none none none none =
      { model := AbstractConfig.new "DocModel.Config"
        trainer := AbstractConfig.new "Trainer.Config"
        features := AbstractConfig.new "DocClassification.ModelInputConfig"
        labels := AbstractConfig.new "KDDocClassification.TargetConfig"
        data_handler := AbstractConfig.new
          "KDDocClassificationDataHandler.Config"
        metric_reporter := AbstractConfig.new
          "ClassificationMetricReporter.Config" }) :=
  ⟨fun _ _ => rfl, rfl, fun _ => rfl, fun _ => rfl, rfl, rfl, rfl, rfl, rfl,
    rfl, rfl⟩

end PyText
